import Mathlib

/-
Shallow embedding of the resilient HTTP request client `ApiClient` from
`src/apps/we-dev-client/src/utils/security.ts`, together with the pieces of
`errorHandler.ts` it observes (the `logError` records).

Modelling conventions:
  * `Date.now()` timestamps and durations are `Nat` milliseconds; the JS
    subtraction `now - cached.timestamp` (which can be negative) is computed
    in `Int`, exactly as JS number subtraction behaves on these values.
  * One `fetch` invocation is abstracted by a `FetchResult`: either the
    deadline timer fired first and aborted the call, or the transport
    rejected (network error), or a response arrived with status, statusText,
    headers and an already-JSON-decoded body.  The `transport` argument of
    `request` gives the fetch result of each attempt index.
  * A call is modelled as instantaneous at clock value `now`: the backoff
    waits are recorded in the trace (`delays`) rather than simulated, which
    is what the code's controllable-clock tests would observe.
  * The instrumentation fields `timerCleared` / `timerFired` /
    `pendingTimers` record whether `clearTimeout` executed on the taken path
    and whether the per-attempt deadline timer was still pending when the
    attempt ended (it is pending iff it was neither cleared nor had fired).
  * `JSON.stringify` of a string value is modelled as wrapping in quotes;
    escaping of special characters inside the string is not modelled (no
    claim depends on it, only on the key being a deterministic function of
    method, resolved URL and serialized body).
-/

/-- A JS `Error` object as the catch block observes it: its `name`
(`"AbortError"` for the deadline abort, `"TypeError"` for a `fetch`
transport rejection, `"Error"` for the locally thrown HTTP-status error)
and its `message`. -/
structure JsError where
  name : String
  message : String
deriving Repr, DecidableEq

/-- `ApiConfig` after the constructor has spread the defaults:
`{ timeout: 30000, retries: 3, retryDelay: 1000, ...config }`. -/
structure ApiConfig where
  baseURL : String
  timeout : Nat
  retries : Nat
  retryDelay : Nat
deriving Repr, DecidableEq

/-- A `this.cache` entry: `{ data, timestamp, ttl }`. -/
structure CacheEntry where
  data : String
  timestamp : Nat
  ttl : Nat
deriving Repr, DecidableEq

/-- The cache `Map<string, {data, timestamp, ttl}>`, as an association list
in insertion order. -/
abbrev Cache := List (String × CacheEntry)

/-- `Map.prototype.get`: the entry stored under `key`, if any. -/
def cacheGet : Cache → String → Option CacheEntry
  | [], _ => none
  | (k, e) :: rest, key => if k = key then some e else cacheGet rest key

/-- `Map.prototype.set`: overwrite the entry in place if the key is present,
otherwise append it. -/
def cacheSet : Cache → String → CacheEntry → Cache
  | [], key, e => [(key, e)]
  | (k, e0) :: rest, key, e =>
      if k = key then (key, e) :: rest else (k, e0) :: cacheSet rest key e

/-- The subset of a `RequestInit` options object that `ApiClient` reads:
`method`, `body` and header overrides. -/
structure RequestInit where
  method : Option String := none
  body : Option String := none
  headers : List (String × String) := []
deriving Repr, DecidableEq

/-- `JSON.stringify` applied to a string value: wrap in quotes (escaping of
special characters inside the string is not modelled). -/
def jsonQuote (s : String) : String := "\"" ++ s ++ "\""

/-- `url.startsWith('http')`, on the underlying character sequences. -/
def strStartsWith (s pre : String) : Bool :=
  List.isPrefixOf pre.data s.data

/-- A `Response`'s `ok` field: status in the 200–299 range. -/
def responseOk (status : Nat) : Bool := decide (200 ≤ status ∧ status ≤ 299)

/-- What the code can observe of one `fetch` invocation made under the
per-attempt deadline. -/
inductive FetchResult where
  | timeout
  | networkError (message : String)
  | response (status : Nat) (statusText : String)
      (headers : List (String × String)) (body : String)
deriving Repr, DecidableEq

/-- The `ApiResponse<T>` record returned to the caller:
`{ data, status, statusText, headers }`. -/
structure ApiResponse where
  data : String
  status : Nat
  statusText : String
  headers : List (String × String)
deriving Repr, DecidableEq

/-- One `errorHandler.logError` record emitted by the catch block: the code
(`"API_TIMEOUT"` or `"API_ERROR"`), the formatted message, the attempt
index, and (for non-abort errors) the underlying error message detail. -/
structure LogEntry where
  code : String
  message : String
  attempt : Nat
  errMessage : Option String
deriving Repr, DecidableEq

/-- Result of one loop iteration body (fetch under deadline, `response.ok`
check, JSON decode), plus timer instrumentation: `timerCleared` is true iff
`clearTimeout(timeoutId)` executed on the taken path, `timerFired` iff the
deadline timer fired (aborting the fetch). -/
structure AttemptResult where
  outcome : Except JsError ApiResponse
  timerCleared : Bool
  timerFired : Bool

/-- One attempt of `ApiClient.request` (the `try` block of one loop
iteration): `clearTimeout` runs only after `await fetch(...)` resolves, so
it is skipped when the fetch rejects — on a network error the timer has
neither fired nor been cleared. -/
def runAttempt : FetchResult → AttemptResult
  | FetchResult.timeout =>
      { outcome := Except.error { name := "AbortError", message := "The operation was aborted" },
        timerCleared := false, timerFired := true }
  | FetchResult.networkError msg =>
      { outcome := Except.error { name := "TypeError", message := msg },
        timerCleared := false, timerFired := false }
  | FetchResult.response status statusText headers body =>
      if responseOk status then
        { outcome := Except.ok { data := body, status := status, statusText := statusText, headers := headers },
          timerCleared := true, timerFired := false }
      else
        { outcome := Except.error { name := "Error", message := "HTTP " ++ toString status ++ ": " ++ statusText },
          timerCleared := true, timerFired := false }

/-- Whether a fetch result makes the iteration land in the catch block. -/
def isFailureB : FetchResult → Bool
  | FetchResult.timeout => true
  | FetchResult.networkError _ => true
  | FetchResult.response status _ _ _ => !(responseOk status)

/-- The `JsError` a failing fetch result throws (junk value on a successful
result, which never reaches the catch block). -/
def failureError : FetchResult → JsError
  | FetchResult.timeout => { name := "AbortError", message := "The operation was aborted" }
  | FetchResult.networkError msg => { name := "TypeError", message := msg }
  | FetchResult.response status statusText _ _ =>
      { name := "Error", message := "HTTP " ++ toString status ++ ": " ++ statusText }

/-- The `ApiResponse` a successful fetch result produces (junk value on a
failing result). -/
def successResponse : FetchResult → ApiResponse
  | FetchResult.response status statusText headers body =>
      { data := body, status := status, statusText := statusText, headers := headers }
  | _ => { data := "", status := 0, statusText := "", headers := [] }

/-- The `errorHandler.logError` call of the catch block: abort errors are
reported as `API_TIMEOUT`, everything else as `API_ERROR` with the error
message in the details. -/
def logOf (fullUrl : String) (attempt : Nat) (e : JsError) : LogEntry :=
  if e.name = "AbortError" then
    { code := "API_TIMEOUT", message := "Request timeout: " ++ fullUrl,
      attempt := attempt, errMessage := none }
  else
    { code := "API_ERROR", message := "Request failed: " ++ fullUrl,
      attempt := attempt, errMessage := some e.message }

/-- Mutable state threaded through the retry loop, together with the
observation trace (fetch count, recorded backoff waits, log records, cache,
timers left pending). -/
structure LoopState where
  lastError : Option JsError
  fetchCalls : Nat
  delays : List Nat
  log : List LogEntry
  cache : Cache
  pendingTimers : Nat

/-- Everything a call to `ApiClient.request` produces: its
result (returned response or thrown error) and the observation trace. -/
structure RequestTrace where
  result : Except JsError ApiResponse
  fetchCalls : Nat
  delays : List Nat
  log : List LogEntry
  cache : Cache
  pendingTimers : Nat

namespace ApiClient

/-- The `ApiClient` constructor: defaults `timeout: 30000, retries: 3,
retryDelay: 1000` overridden by whatever the caller's config provides. -/
def mkConfig (baseURL : String) (timeout retries retryDelay : Option Nat) : ApiConfig :=
  { baseURL := baseURL
    timeout := timeout.getD 30000
    retries := retries.getD 3
    retryDelay := retryDelay.getD 1000 }

/-- `getCacheKey`: `` `${method}:${url}:${body}` `` where the method
defaults to `'GET'` and a missing or empty (falsy) body serializes to the
empty string, a present body to its `JSON.stringify`. -/
def getCacheKey (url : String) (options : RequestInit) : String :=
  let method := options.method.getD "GET"
  let body := match options.body with
    | none => ""
    | some b => if b = "" then "" else jsonQuote b
  method ++ ":" ++ url ++ ":" ++ body

/-- `isCacheValid`: the key has an entry and `(now - cached.timestamp) <
cached.ttl` (JS number subtraction, hence computed in `Int`). -/
def isCacheValid (cache : Cache) (now : Nat) (key : String) : Bool :=
  match cacheGet cache key with
  | none => false
  | some cached => decide ((now : Int) - (cached.timestamp : Int) < (cached.ttl : Int))

/-- `setCache`: store `{ data, timestamp: Date.now(), ttl }` under the key. -/
def setCache (cache : Cache) (now : Nat) (key : String) (data : String) (ttl : Nat) : Cache :=
  cacheSet cache key { data := data, timestamp := now, ttl := ttl }

/-- `clearExpiredCache`: delete every entry with `(now - timestamp) >= ttl`. -/
def clearExpiredCache (cache : Cache) (now : Nat) : Cache :=
  cache.filter fun kv => !(decide ((kv.2.ttl : Int) ≤ (now : Int) - (kv.2.timestamp : Int)))

/-- `` url.startsWith('http') ? url : `${this.config.baseURL}${url}` ``. -/
def resolveUrl (cfg : ApiConfig) (url : String) : String :=
  if strStartsWith url "http" then url else cfg.baseURL ++ url

/-- State update performed unconditionally by one iteration: the fetch ran
(one more transport invocation), and if the timer was neither cleared nor
had fired, it is left pending. -/
def afterFetch (st : LoopState) (ar : AttemptResult) : LoopState :=
  { st with fetchCalls := st.fetchCalls + 1,
            pendingTimers := st.pendingTimers + (if !ar.timerCleared && !ar.timerFired then 1 else 0) }

/-- The retry loop `for (attempt = 0; attempt <= retries; attempt++)` of
`ApiClient.request`.  `fuel` is the number of iterations left
(`retries + 1 - attempt`); when it reaches 0 the loop exits and the code
throws `lastError || new Error('Request failed after all retries')`. -/
def requestLoop (cfg : ApiConfig) (transport : Nat → FetchResult) (fullUrl : String)
    (useCache : Bool) (isGet : Bool) (cacheKey : String) (cacheTTL : Nat) (now : Nat) :
    Nat → Nat → LoopState → RequestTrace
  | _, 0, st =>
      { result := Except.error
          (st.lastError.getD { name := "Error", message := "Request failed after all retries" }),
        fetchCalls := st.fetchCalls, delays := st.delays, log := st.log,
        cache := st.cache, pendingTimers := st.pendingTimers }
  | attempt, fuel + 1, st =>
      let st1 := afterFetch st (runAttempt (transport attempt))
      match (runAttempt (transport attempt)).outcome with
      | Except.ok resp =>
          { result := Except.ok resp,
            fetchCalls := st1.fetchCalls, delays := st1.delays, log := st1.log,
            cache := if useCache && isGet then setCache st1.cache now cacheKey resp.data cacheTTL
                     else st1.cache,
            pendingTimers := st1.pendingTimers }
      | Except.error e =>
          let st2 := { st1 with lastError := some e,
                                log := st1.log ++ [logOf fullUrl attempt e] }
          if attempt < cfg.retries then
            requestLoop cfg transport fullUrl useCache isGet cacheKey cacheTTL now
              (attempt + 1) fuel
              { st2 with delays := st2.delays ++ [cfg.retryDelay * 2 ^ attempt] }
          else
            requestLoop cfg transport fullUrl useCache isGet cacheKey cacheTTL now
              (attempt + 1) fuel st2

/-- Loop state at entry of `request`'s retry loop: no error yet, empty
trace, the cache as the call found it. -/
def initState (cache : Cache) : LoopState :=
  { lastError := none, fetchCalls := 0, delays := [], log := [],
    cache := cache, pendingTimers := 0 }

/-- `ApiClient.request(url, options, useCache, cacheTTL)`.  `transport`
gives the fetch outcome of each attempt index; `now` is `Date.now()` during
the call.  Defaults in the source: `useCache = false`,
`cacheTTL = 5 * 60 * 1000`. -/
def request (cfg : ApiConfig) (cache : Cache) (transport : Nat → FetchResult)
    (now : Nat) (url : String) (options : RequestInit)
    (useCache : Bool) (cacheTTL : Nat) : RequestTrace :=
  let fullUrl := resolveUrl cfg url
  let cacheKey := getCacheKey fullUrl options
  if useCache && (options.method == some "GET") && isCacheValid cache now cacheKey then
    match cacheGet cache cacheKey with
    | some cached =>
        { result := Except.ok
            { data := cached.data, status := 200, statusText := "OK (Cached)", headers := [] },
          fetchCalls := 0, delays := [], log := [], cache := cache, pendingTimers := 0 }
    | none =>
        -- dead code: `isCacheValid` returning true means the key is present
        requestLoop cfg transport fullUrl useCache (options.method == some "GET")
          cacheKey cacheTTL now 0 (cfg.retries + 1) (initState cache)
  else
    requestLoop cfg transport fullUrl useCache (options.method == some "GET")
      cacheKey cacheTTL now 0 (cfg.retries + 1) (initState cache)

/-- `ApiClient.get(url, useCache = true)`. -/
def get (cfg : ApiConfig) (cache : Cache) (transport : Nat → FetchResult)
    (now : Nat) (url : String) (useCache : Bool) : RequestTrace :=
  request cfg cache transport now url { method := some "GET" } useCache (5 * 60 * 1000)

/-- `ApiClient.post(url, data)`: body is `JSON.stringify(data)` when `data`
is truthy, otherwise absent; `useCache` is left at its default `false`. -/
def post (cfg : ApiConfig) (cache : Cache) (transport : Nat → FetchResult)
    (now : Nat) (url : String) (data : Option String) : RequestTrace :=
  request cfg cache transport now url
    { method := some "POST",
      body := data.bind fun d => if d = "" then none else some (jsonQuote d) }
    false (5 * 60 * 1000)

/-- `ApiClient.put(url, data)`. -/
def put (cfg : ApiConfig) (cache : Cache) (transport : Nat → FetchResult)
    (now : Nat) (url : String) (data : Option String) : RequestTrace :=
  request cfg cache transport now url
    { method := some "PUT",
      body := data.bind fun d => if d = "" then none else some (jsonQuote d) }
    false (5 * 60 * 1000)

/-- `ApiClient.delete(url)`. -/
def del (cfg : ApiConfig) (cache : Cache) (transport : Nat → FetchResult)
    (now : Nat) (url : String) : RequestTrace :=
  request cfg cache transport now url { method := some "DELETE" } false (5 * 60 * 1000)

end ApiClient

namespace ApiClient

/-- A failing fetch result makes the attempt throw exactly the error
`failureError` describes. -/
theorem runAttempt_fail (fr : FetchResult) (h : isFailureB fr = true) :
    (runAttempt fr).outcome = Except.error (failureError fr) := by
  cases fr with
  | timeout => rfl
  | networkError m => rfl
  | response s stx hd b =>
      simp only [isFailureB, Bool.not_eq_true'] at h
      simp [runAttempt, failureError, h]

/-- A successful fetch result makes the attempt return `successResponse`,
and on that path `clearTimeout` did run. -/
theorem runAttempt_success (fr : FetchResult) (h : isFailureB fr = false) :
    (runAttempt fr).outcome = Except.ok (successResponse fr) ∧
    (runAttempt fr).timerCleared = true := by
  cases fr with
  | timeout => simp [isFailureB] at h
  | networkError m => simp [isFailureB] at h
  | response s stx hd b =>
      simp only [isFailureB] at h
      have h' : responseOk s = true := by
        cases hr : responseOk s with
        | false => rw [hr] at h; simp at h
        | true => rfl
      simp [runAttempt, successResponse, h']

/-- One failing iteration of the retry loop: record the fetch, the possibly
leaked timer, the log entry and (when a retry follows) the backoff wait,
then continue with the next attempt index. -/
theorem requestLoop_fail_step (cfg : ApiConfig) (transport : Nat → FetchResult)
    (u : String) (uc ig : Bool) (key : String) (ttl now a f : Nat) (st : LoopState)
    (hf : isFailureB (transport a) = true) :
    requestLoop cfg transport u uc ig key ttl now a (f + 1) st
      = requestLoop cfg transport u uc ig key ttl now (a + 1) f
          { lastError := some (failureError (transport a)),
            fetchCalls := st.fetchCalls + 1,
            delays := st.delays ++ (if a < cfg.retries then [cfg.retryDelay * 2 ^ a] else []),
            log := st.log ++ [logOf u a (failureError (transport a))],
            cache := st.cache,
            pendingTimers := st.pendingTimers
              + (if !(runAttempt (transport a)).timerCleared
                    && !(runAttempt (transport a)).timerFired then 1 else 0) } := by
  simp only [requestLoop]
  rw [runAttempt_fail _ hf]
  simp only [afterFetch]
  split
  · rfl
  · congr 1
    simp

/-- One successful iteration of the retry loop: the call returns, the timer
was cleared (no leak), and the cache is written iff the call is a cacheable
GET. -/
theorem requestLoop_success_step (cfg : ApiConfig) (transport : Nat → FetchResult)
    (u : String) (uc ig : Bool) (key : String) (ttl now a f : Nat) (st : LoopState)
    (hs : isFailureB (transport a) = false) :
    requestLoop cfg transport u uc ig key ttl now a (f + 1) st
      = { result := Except.ok (successResponse (transport a)),
          fetchCalls := st.fetchCalls + 1,
          delays := st.delays,
          log := st.log,
          cache := if uc && ig then
              setCache st.cache now key (successResponse (transport a)).data ttl
            else st.cache,
          pendingTimers := st.pendingTimers } := by
  obtain ⟨ho, ht⟩ := runAttempt_success (transport a) hs
  simp only [requestLoop]
  rw [ho]
  simp [afterFetch, ht]

end ApiClient

namespace ApiClient

/-- The error `throw lastError || new Error('Request failed after all
retries')` surfaces when a run of `f` further all-failing attempts starting
at index `a` exhausts the loop. -/
def loopLastErr (transport : Nat → FetchResult) : Nat → Nat → Option JsError → JsError
  | 0, _, le => le.getD { name := "Error", message := "Request failed after all retries" }
  | f + 1, a, _ => failureError (transport (a + f))

/-- Trace of a loop run in which every attempt fails: one fetch per
iteration, the cache untouched, one log record per attempt, one backoff
wait of `retryDelay * 2 ^ i` after every non-final failing attempt `i`, and
the last attempt's error as the call's result. -/
theorem loop_all_fail (cfg : ApiConfig) (transport : Nat → FetchResult)
    (u : String) (uc ig : Bool) (key : String) (ttl now : Nat)
    (hfail : ∀ i, isFailureB (transport i) = true) :
    ∀ (f a : Nat) (st : LoopState),
      (requestLoop cfg transport u uc ig key ttl now a f st).fetchCalls = st.fetchCalls + f ∧
      (requestLoop cfg transport u uc ig key ttl now a f st).cache = st.cache ∧
      (requestLoop cfg transport u uc ig key ttl now a f st).log
        = st.log ++ (List.range' a f).map (fun i => logOf u i (failureError (transport i))) ∧
      (requestLoop cfg transport u uc ig key ttl now a f st).delays
        = st.delays ++ ((List.range' a f).filter (fun i => decide (i < cfg.retries))).map
            (fun i => cfg.retryDelay * 2 ^ i) ∧
      (requestLoop cfg transport u uc ig key ttl now a f st).result
        = Except.error (loopLastErr transport f a st.lastError) := by
  intro f
  induction f with
  | zero =>
      intro a st
      simp [requestLoop, loopLastErr, List.range']
  | succ f ih =>
      intro a st
      rw [requestLoop_fail_step cfg transport u uc ig key ttl now a f st (hfail a)]
      obtain ⟨h1, h2, h3, h4, h5⟩ := ih (a + 1) _
      refine ⟨?_, ?_, ?_, ?_, ?_⟩
      · rw [h1]; dsimp only; omega
      · rw [h2]
      · rw [h3]; dsimp only
        rw [List.range'_succ]
        simp
      · rw [h4]; dsimp only
        rw [List.range'_succ, List.filter_cons]
        by_cases ha : a < cfg.retries <;> simp [ha]
      · rw [h5]
        cases f with
        | zero => simp [loopLastErr]
        | succ f =>
            simp only [loopLastErr]
            have e : a + 1 + f = a + (f + 1) := by omega
            rw [e]

/-- A loop run that is not a cacheable GET never touches the cache,
whatever the transport does. -/
theorem loop_cache_frame (cfg : ApiConfig) (transport : Nat → FetchResult)
    (u key : String) (ttl now : Nat) {uc ig : Bool} (h : (uc && ig) = false) :
    ∀ (f a : Nat) (st : LoopState),
      (requestLoop cfg transport u uc ig key ttl now a f st).cache = st.cache := by
  intro f
  induction f with
  | zero => intro a st; simp [requestLoop]
  | succ f ih =>
      intro a st
      by_cases hb : isFailureB (transport a) = true
      · rw [requestLoop_fail_step cfg transport u uc ig key ttl now a f st hb]
        exact ih (a + 1) _
      · rw [requestLoop_success_step cfg transport u uc ig key ttl now a f st
              (by simpa using hb)]
        simp [h]

/-- Whatever happens inside the loop, it only appends to the log it was
started with. -/
theorem loop_log_extends (cfg : ApiConfig) (transport : Nat → FetchResult)
    (u : String) (uc ig : Bool) (key : String) (ttl now : Nat) :
    ∀ (f a : Nat) (st : LoopState),
      ∃ t, (requestLoop cfg transport u uc ig key ttl now a f st).log = st.log ++ t := by
  intro f
  induction f with
  | zero => intro a st; exact ⟨[], by simp [requestLoop]⟩
  | succ f ih =>
      intro a st
      by_cases hb : isFailureB (transport a) = true
      · rw [requestLoop_fail_step cfg transport u uc ig key ttl now a f st hb]
        obtain ⟨t, ht⟩ := ih (a + 1) _
        refine ⟨logOf u a (failureError (transport a)) :: t, ?_⟩
        rw [ht]
        simp
      · rw [requestLoop_success_step cfg transport u uc ig key ttl now a f st
              (by simpa using hb)]
        exact ⟨[], by simp⟩

/-- Trace of a loop run whose first `j` attempts fail and whose attempt
`a + j` succeeds within the remaining fuel: the successful value is
returned, `j + 1` fetches happen, and exactly the `j` failures are logged. -/
theorem loop_success_after (cfg : ApiConfig) (transport : Nat → FetchResult)
    (u : String) (uc ig : Bool) (key : String) (ttl now : Nat) :
    ∀ (j f a : Nat) (st : LoopState),
      (∀ i, i < j → isFailureB (transport (a + i)) = true) →
      isFailureB (transport (a + j)) = false →
      j < f →
      (requestLoop cfg transport u uc ig key ttl now a f st).result
          = Except.ok (successResponse (transport (a + j))) ∧
      (requestLoop cfg transport u uc ig key ttl now a f st).fetchCalls
          = st.fetchCalls + (j + 1) ∧
      (requestLoop cfg transport u uc ig key ttl now a f st).log
          = st.log ++ (List.range' a j).map (fun i => logOf u i (failureError (transport i))) := by
  intro j
  induction j with
  | zero =>
      intro f a st hfail hsucc hjf
      cases f with
      | zero => omega
      | succ f =>
          rw [requestLoop_success_step cfg transport u uc ig key ttl now a f st
                (by simpa using hsucc)]
          simp [List.range']
  | succ j ih =>
      intro f a st hfail hsucc hjf
      cases f with
      | zero => omega
      | succ f =>
          have hfa : isFailureB (transport a) = true := by
            have h0 := hfail 0 (Nat.succ_pos j)
            simpa using h0
          rw [requestLoop_fail_step cfg transport u uc ig key ttl now a f st hfa]
          have hfail' : ∀ i, i < j → isFailureB (transport (a + 1 + i)) = true := by
            intro i hi
            have h1 := hfail (i + 1) (by omega)
            have e : a + (i + 1) = a + 1 + i := by omega
            rwa [e] at h1
          have hsucc' : isFailureB (transport (a + 1 + j)) = false := by
            have e : a + (j + 1) = a + 1 + j := by omega
            rwa [e] at hsucc
          obtain ⟨h1, h2, h3⟩ := ih f (a + 1) _ hfail' hsucc' (by omega)
          refine ⟨?_, ?_, ?_⟩
          · rw [h1]
            have e : a + 1 + j = a + (j + 1) := by omega
            rw [e]
          · rw [h2]; dsimp only; omega
          · rw [h3]; dsimp only
            rw [List.range'_succ]
            simp

end ApiClient

namespace ApiClient

/-- With `useCache = false` the cache branch of `request` is dead and the
call is exactly its retry loop, started at attempt 0 with
`retries + 1` iterations of fuel. -/
theorem request_no_cache (cfg : ApiConfig) (cache : Cache) (transport : Nat → FetchResult)
    (now : Nat) (url : String) (options : RequestInit) (cacheTTL : Nat) :
    request cfg cache transport now url options false cacheTTL
      = requestLoop cfg transport (resolveUrl cfg url) false (options.method == some "GET")
          (getCacheKey (resolveUrl cfg url) options) cacheTTL now 0 (cfg.retries + 1)
          (initState cache) := by
  simp [request]

/-- When `isCacheValid` answers true the key is present and its entry is
live. -/
theorem isCacheValid_cacheGet {cache : Cache} {now : Nat} {key : String}
    (h : isCacheValid cache now key = true) :
    ∃ e, cacheGet cache key = some e ∧
      (now : Int) - (e.timestamp : Int) < (e.ttl : Int) := by
  unfold isCacheValid at h
  cases hg : cacheGet cache key with
  | none => rw [hg] at h; simp at h
  | some e =>
      rw [hg] at h
      simp at h
      exact ⟨e, rfl, h⟩

/-- A call with `useCache = true`, method GET and a live entry under the
derived key returns the cached-response record at once, with an untouched
cache and an empty trace. -/
theorem request_cache_hit (cfg : ApiConfig) (cache : Cache) (transport : Nat → FetchResult)
    (now : Nat) (url : String) (options : RequestInit) (cacheTTL : Nat) (e : CacheEntry)
    (hmethod : options.method = some "GET")
    (hget : cacheGet cache (getCacheKey (resolveUrl cfg url) options) = some e)
    (hlive : (now : Int) - (e.timestamp : Int) < (e.ttl : Int)) :
    request cfg cache transport now url options true cacheTTL
      = { result := Except.ok
            { data := e.data, status := 200, statusText := "OK (Cached)", headers := [] },
          fetchCalls := 0, delays := [], log := [], cache := cache, pendingTimers := 0 } := by
  have hvalid : isCacheValid cache now (getCacheKey (resolveUrl cfg url) options) = true := by
    unfold isCacheValid
    rw [hget]
    simpa using hlive
  simp [request, hmethod, hvalid, hget]

/-- The cache is unchanged by any call that is non-cacheable
(`useCache = false`), is not a GET, or never sees a successful attempt. -/
theorem request_preserves_cache (cfg : ApiConfig) (cache : Cache)
    (transport : Nat → FetchResult) (now : Nat) (url : String) (options : RequestInit)
    (useCache : Bool) (cacheTTL : Nat)
    (h : useCache = false ∨ options.method ≠ some "GET"
          ∨ ∀ i, isFailureB (transport i) = true) :
    (request cfg cache transport now url options useCache cacheTTL).cache = cache := by
  simp only [request]
  split
  · next hc =>
      split
      · rfl
      · next hnone =>
          simp only [Bool.and_eq_true] at hc
          obtain ⟨e, hget, -⟩ := isCacheValid_cacheGet hc.2
          rw [hget] at hnone
          exact absurd hnone (by simp)
  · rcases h with h | h | h
    · exact loop_cache_frame cfg transport _ _ _ now (by simp [h]) _ _ _
    · have hm : (options.method == some "GET") = false := by
        simpa using h
      exact loop_cache_frame cfg transport _ _ _ now (by simp [hm]) _ _ _
    · exact (loop_all_fail cfg transport _ _ _ _ _ now h _ _ _).2.1

end ApiClient

/-- The non-final attempt indices of a full loop run are exactly
`0, …, n - 1`. -/
theorem range'_filter_lt (n : Nat) :
    (List.range' 0 (n + 1)).filter (fun i => decide (i < n)) = List.range n := by
  rw [← List.range_eq_range', List.range_succ, List.filter_append]
  have h1 : (List.range n).filter (fun i => decide (i < n)) = List.range n := by
    apply List.filter_eq_self.mpr
    intro a ha
    simpa using List.mem_range.mp ha
  have h2 : ([n].filter (fun i => decide (i < n))) = ([] : List Nat) := by simp
  rw [h1, h2, List.append_nil]

/-- Witness configuration: all constructor defaults
(`timeout 30000, retries 3, retryDelay 1000`). -/
def cfgW : ApiConfig := ApiClient.mkConfig "http://api.example.com" none none none

/-- Witness cache entry, stored at time 100 with a 5000 ms TTL. -/
def entryW : CacheEntry := { data := "payload", timestamp := 100, ttl := 5000 }

/-- Witness cache holding `entryW` under the key of a GET to `/a`. -/
def cacheW : Cache := [("GET:http://api.example.com/a:", entryW)]

/-- A transport that rejects every attempt with a connection error. -/
def failW : Nat → FetchResult := fun _ => FetchResult.networkError "connection refused"

/-- A transport failing on attempts 0 and 1 and succeeding on attempt 2. -/
def flakyW : Nat → FetchResult := fun i =>
  if i < 2 then FetchResult.networkError "connection reset"
  else FetchResult.response 200 "OK" [] "fresh-value"

/-- A transport answering every attempt with a 201 response carrying
distinctive statusText and headers. -/
def okW : Nat → FetchResult := fun _ =>
  FetchResult.response 201 "Created" [("x-served-by", "origin")] "fresh-value"

/-- A transport whose deadline fires before every response. -/
def timeoutW : Nat → FetchResult := fun _ => FetchResult.timeout

/-- C1: for a cacheable GET whose derived cache key holds an entry stored
within its TTL, a repeated call with the identical key invokes the
network transport zero times and returns the stored value unchanged as the
response data. -/
theorem cache_hit_avoids_network (cfg : ApiConfig) (cache : Cache)
    (transport : Nat → FetchResult) (now : Nat) (url : String) (e : CacheEntry)
    (hget : cacheGet cache
        (ApiClient.getCacheKey (ApiClient.resolveUrl cfg url) { method := some "GET" }) = some e)
    (hlive : (now : Int) - (e.timestamp : Int) < (e.ttl : Int)) :
    (ApiClient.get cfg cache transport now url true).fetchCalls = 0 ∧
    ∃ r, (ApiClient.get cfg cache transport now url true).result = Except.ok r
          ∧ r.data = e.data := by
  have h := ApiClient.request_cache_hit cfg cache transport now url { method := some "GET" }
    (5 * 60 * 1000) e rfl hget hlive
  unfold ApiClient.get
  rw [h]
  exact ⟨rfl, ⟨_, rfl, rfl⟩⟩

/-- Closed instance of C1: a cached GET at time 4000 against an entry
stored at 100 with TTL 5000 performs no fetch and answers the stored
payload. -/
theorem cache_hit_avoids_network_witness :
    (cacheGet cacheW
        (ApiClient.getCacheKey (ApiClient.resolveUrl cfgW "/a") { method := some "GET" }) = some entryW ∧
      ((4000 : Nat) : Int) - (entryW.timestamp : Int) < (entryW.ttl : Int)) ∧
    ((ApiClient.get cfgW cacheW okW 4000 "/a" true).fetchCalls = 0 ∧
      ∃ r, (ApiClient.get cfgW cacheW okW 4000 "/a" true).result = Except.ok r
            ∧ r.data = entryW.data) :=
  ⟨⟨by decide, by decide⟩,
   cache_hit_avoids_network cfgW cacheW okW 4000 "/a" entryW (by decide) (by decide)⟩

/-- C10: a cache hit answers status 200, statusText "OK (Cached)" and a
freshly constructed empty headers object; only the data field comes from
the stored entry — the originally fetched response's status, statusText
and headers are not preserved (they are not even stored). -/
theorem cache_hit_response_shape (cfg : ApiConfig) (cache : Cache)
    (transport : Nat → FetchResult) (now : Nat) (url : String) (e : CacheEntry)
    (hget : cacheGet cache
        (ApiClient.getCacheKey (ApiClient.resolveUrl cfg url) { method := some "GET" }) = some e)
    (hlive : (now : Int) - (e.timestamp : Int) < (e.ttl : Int)) :
    (ApiClient.get cfg cache transport now url true).result
      = Except.ok { data := e.data, status := 200, statusText := "OK (Cached)", headers := [] } := by
  have h := ApiClient.request_cache_hit cfg cache transport now url { method := some "GET" }
    (5 * 60 * 1000) e rfl hget hlive
  unfold ApiClient.get
  rw [h]

/-- Closed instance of C10 on the witness cache. -/
theorem cache_hit_response_shape_witness :
    (cacheGet cacheW
        (ApiClient.getCacheKey (ApiClient.resolveUrl cfgW "/a") { method := some "GET" }) = some entryW ∧
      ((4000 : Nat) : Int) - (entryW.timestamp : Int) < (entryW.ttl : Int)) ∧
    (ApiClient.get cfgW cacheW okW 4000 "/a" true).result
      = Except.ok { data := "payload", status := 200, statusText := "OK (Cached)", headers := [] } :=
  ⟨⟨by decide, by decide⟩,
   cache_hit_response_shape cfgW cacheW okW 4000 "/a" entryW (by decide) (by decide)⟩

/-- C4: an entry under a present key is reported live by `isCacheValid`
exactly when `now - storedAt < ttl`; in particular any lookup at
`storedAt + ttl` or later sees a miss. -/
theorem cache_expiry (cache : Cache) (key : String) (e : CacheEntry) (now : Nat)
    (hget : cacheGet cache key = some e) :
    (ApiClient.isCacheValid cache now key = true
        ↔ (now : Int) - (e.timestamp : Int) < (e.ttl : Int)) ∧
    (e.timestamp + e.ttl ≤ now → ApiClient.isCacheValid cache now key = false) := by
  have h1 : ApiClient.isCacheValid cache now key
      = decide ((now : Int) - (e.timestamp : Int) < (e.ttl : Int)) := by
    unfold ApiClient.isCacheValid
    rw [hget]
  constructor
  · rw [h1]
    simp
  · intro hle
    rw [h1]
    apply decide_eq_false
    omega

/-- Closed instance of C4: the witness entry (stored at 100, TTL 5000) is
expired at time 6000. -/
theorem cache_expiry_witness :
    (cacheGet cacheW "GET:http://api.example.com/a:" = some entryW) ∧
    ((ApiClient.isCacheValid cacheW 6000 "GET:http://api.example.com/a:" = true
        ↔ ((6000 : Nat) : Int) - (entryW.timestamp : Int) < (entryW.ttl : Int)) ∧
      (entryW.timestamp + entryW.ttl ≤ 6000 →
        ApiClient.isCacheValid cacheW 6000 "GET:http://api.example.com/a:" = false)) :=
  ⟨by decide, cache_expiry cacheW "GET:http://api.example.com/a:" entryW 6000 (by decide)⟩

/-- C5 is refuted on the code: `clearTimeout(timeoutId)` runs only after
`await fetch(...)` resolves, so when the transport rejects with a network
error before the deadline fires the catch block is entered with the
deadline timer neither cleared nor fired — a pending timer remains after
the attempt ends.  A one-attempt call whose fetch rejects ends with one
pending timer. -/
theorem timer_left_pending_on_network_error :
    (ApiClient.request (ApiClient.mkConfig "http://api.example.com" none (some 0) none) []
        (fun _ => FetchResult.networkError "connection refused") 0 "/x" {} false 300000).pendingTimers = 1 ∧
    (runAttempt (FetchResult.networkError "connection refused")).timerCleared = false ∧
    (runAttempt (FetchResult.networkError "connection refused")).timerFired = false :=
  ⟨by decide, rfl, rfl⟩

/-- C2: with `retries = N` and a transport that fails on every attempt, the
call invokes the transport exactly `N + 1` times and then fails with an
error. -/
theorem retry_exhaustion_count (cfg : ApiConfig) (cache : Cache)
    (transport : Nat → FetchResult) (now : Nat) (url : String) (options : RequestInit)
    (cacheTTL : Nat) (hfail : ∀ i, isFailureB (transport i) = true) :
    (ApiClient.request cfg cache transport now url options false cacheTTL).fetchCalls
        = cfg.retries + 1 ∧
    ∃ err, (ApiClient.request cfg cache transport now url options false cacheTTL).result
        = Except.error err := by
  rw [ApiClient.request_no_cache]
  obtain ⟨h1, -, -, -, h5⟩ := ApiClient.loop_all_fail cfg transport
    (ApiClient.resolveUrl cfg url) false (options.method == some "GET")
    (ApiClient.getCacheKey (ApiClient.resolveUrl cfg url) options) cacheTTL now hfail
    (cfg.retries + 1) 0 (ApiClient.initState cache)
  refine ⟨?_, ⟨_, h5⟩⟩
  rw [h1]
  simp [ApiClient.initState]

/-- Closed instance of C2: with the default 3 retries, an always-failing
transport is invoked exactly 4 times before the call fails. -/
theorem retry_exhaustion_count_witness :
    (∀ i, isFailureB (failW i) = true) ∧
    ((ApiClient.request cfgW [] failW 0 "/a" { method := some "GET" } false 300000).fetchCalls
        = cfgW.retries + 1 ∧
      ∃ err, (ApiClient.request cfgW [] failW 0 "/a" { method := some "GET" } false 300000).result
        = Except.error err) :=
  ⟨fun _ => rfl,
   retry_exhaustion_count cfgW [] failW 0 "/a" { method := some "GET" } 300000 (fun _ => rfl)⟩

/-- C3: under an always-failing transport the waits recorded before the
retries are exactly `retryDelay * 2 ^ i` for `i = 0 .. retries - 1` — the
delay before attempt `i + 1` is `retryDelay * 2 ^ i`, exponential backoff
with no jitter. -/
theorem backoff_growth (cfg : ApiConfig) (cache : Cache)
    (transport : Nat → FetchResult) (now : Nat) (url : String) (options : RequestInit)
    (cacheTTL : Nat) (hfail : ∀ i, isFailureB (transport i) = true) :
    (ApiClient.request cfg cache transport now url options false cacheTTL).delays
        = (List.range cfg.retries).map (fun i => cfg.retryDelay * 2 ^ i) := by
  rw [ApiClient.request_no_cache]
  obtain ⟨-, -, -, h4, -⟩ := ApiClient.loop_all_fail cfg transport
    (ApiClient.resolveUrl cfg url) false (options.method == some "GET")
    (ApiClient.getCacheKey (ApiClient.resolveUrl cfg url) options) cacheTTL now hfail
    (cfg.retries + 1) 0 (ApiClient.initState cache)
  rw [h4]
  simp only [ApiClient.initState, List.nil_append]
  rw [range'_filter_lt]

/-- Closed instance of C3: with the default config the recorded waits are
1000, 2000 and 4000 ms. -/
theorem backoff_growth_witness :
    (∀ i, isFailureB (failW i) = true) ∧
    (ApiClient.request cfgW [] failW 0 "/a" { method := some "GET" } false 300000).delays
        = (List.range cfgW.retries).map (fun i => cfgW.retryDelay * 2 ^ i) :=
  ⟨fun _ => rfl,
   backoff_growth cfgW [] failW 0 "/a" { method := some "GET" } 300000 (fun _ => rfl)⟩

/-- C6: the cache map is unchanged by every call that is non-cacheable
(`useCache = false`), that is not a GET, or whose attempts all fail — in
particular a POST (which passes `useCache = false`) never creates a cache
entry, and failures are never cached. -/
theorem cache_population_requires_cacheable_get_success (cfg : ApiConfig) (cache : Cache)
    (transport : Nat → FetchResult) (now : Nat) (url : String) (options : RequestInit)
    (useCache : Bool) (cacheTTL : Nat)
    (h : useCache = false ∨ options.method ≠ some "GET"
          ∨ ∀ i, isFailureB (transport i) = true) :
    (ApiClient.request cfg cache transport now url options useCache cacheTTL).cache = cache ∧
    (∀ d, (ApiClient.post cfg cache transport now url d).cache = cache) := by
  refine ⟨ApiClient.request_preserves_cache cfg cache transport now url options useCache cacheTTL h,
          fun d => ?_⟩
  simp only [ApiClient.post]
  exact ApiClient.request_preserves_cache cfg cache transport now url _ false (5 * 60 * 1000)
    (Or.inl rfl)

/-- Closed instance of C6: a POST to `/b` against a transport that would
succeed leaves the witness cache exactly as it was. -/
theorem cache_population_requires_cacheable_get_success_witness :
    ((false : Bool) = false ∨ ({ method := some "POST" } : RequestInit).method ≠ some "GET"
        ∨ ∀ i, isFailureB (okW i) = true) ∧
    ((ApiClient.request cfgW cacheW okW 0 "/b" { method := some "POST" } false 300000).cache = cacheW ∧
      (∀ d, (ApiClient.post cfgW cacheW okW 0 "/b" d).cache = cacheW)) :=
  ⟨Or.inr (Or.inl (by decide)),
   cache_population_requires_cacheable_get_success cfgW cacheW okW 0 "/b"
     { method := some "POST" } false 300000 (Or.inr (Or.inl (by decide)))⟩

/-- C7: a transport that fails on attempts `0 .. k-1` and succeeds on
attempt `k ≤ retries` yields the successful value, and every failed
attempt was reported to the error handler: the log holds exactly the `k`
failure records, each emitted for its attempt before the retry decision. -/
theorem success_after_transient_failures (cfg : ApiConfig) (cache : Cache)
    (transport : Nat → FetchResult) (now : Nat) (url : String) (options : RequestInit)
    (cacheTTL : Nat) (k status : Nat) (statusText : String)
    (headers : List (String × String)) (body : String)
    (hk : k ≤ cfg.retries)
    (hfail : ∀ i, i < k → isFailureB (transport i) = true)
    (hsucc : transport k = FetchResult.response status statusText headers body)
    (hok : responseOk status = true) :
    (ApiClient.request cfg cache transport now url options false cacheTTL).result
        = Except.ok { data := body, status := status, statusText := statusText, headers := headers } ∧
    (ApiClient.request cfg cache transport now url options false cacheTTL).log
        = (List.range k).map
            (fun i => logOf (ApiClient.resolveUrl cfg url) i (failureError (transport i))) := by
  rw [ApiClient.request_no_cache]
  have hfail0 : ∀ i, i < k → isFailureB (transport (0 + i)) = true := by
    intro i hi
    simpa using hfail i hi
  have hsucc0 : isFailureB (transport (0 + k)) = false := by
    simp [hsucc, isFailureB, hok]
  obtain ⟨h1, -, h3⟩ := ApiClient.loop_success_after cfg transport
    (ApiClient.resolveUrl cfg url) false (options.method == some "GET")
    (ApiClient.getCacheKey (ApiClient.resolveUrl cfg url) options) cacheTTL now
    k (cfg.retries + 1) 0 (ApiClient.initState cache) hfail0 hsucc0 (by omega)
  constructor
  · rw [h1]
    simp [hsucc, successResponse]
  · rw [h3]
    simp [ApiClient.initState, List.range_eq_range']

/-- Closed instance of C7: two connection resets then a 200 on attempt 2
(with 3 retries configured) return the fresh value with exactly two
failure reports in the log. -/
theorem success_after_transient_failures_witness :
    (2 ≤ cfgW.retries ∧ (∀ i, i < 2 → isFailureB (flakyW i) = true) ∧
      flakyW 2 = FetchResult.response 200 "OK" [] "fresh-value" ∧ responseOk 200 = true) ∧
    ((ApiClient.request cfgW [] flakyW 0 "/a" { method := some "GET" } false 300000).result
        = Except.ok { data := "fresh-value", status := 200, statusText := "OK", headers := [] } ∧
      (ApiClient.request cfgW [] flakyW 0 "/a" { method := some "GET" } false 300000).log
        = (List.range 2).map
            (fun i => logOf (ApiClient.resolveUrl cfgW "/a") i (failureError (flakyW i)))) :=
  ⟨⟨by decide, by decide, by decide, by decide⟩,
   success_after_transient_failures cfgW [] flakyW 0 "/a" { method := some "GET" } 300000
     2 200 "OK" [] "fresh-value" (by decide) (by decide) (by decide) (by decide)⟩

/-- C8: when retries are exhausted the propagated error is exactly the
last attempt's failure error, and the three failure kinds map to mutually
distinguishable error objects: an abort carries name "AbortError", a
transport rejection name "TypeError" with the transport's message, and a
non-success HTTP status name "Error" with message "HTTP status:
statusText". -/
theorem error_carries_last_failure (cfg : ApiConfig) (cache : Cache)
    (transport : Nat → FetchResult) (now : Nat) (url : String) (options : RequestInit)
    (cacheTTL : Nat) (hfail : ∀ i, isFailureB (transport i) = true) :
    (ApiClient.request cfg cache transport now url options false cacheTTL).result
        = Except.error (failureError (transport cfg.retries)) ∧
    failureError FetchResult.timeout
        = { name := "AbortError", message := "The operation was aborted" } ∧
    (∀ m, failureError (FetchResult.networkError m) = { name := "TypeError", message := m }) ∧
    (∀ s stx hd b, failureError (FetchResult.response s stx hd b)
        = { name := "Error", message := "HTTP " ++ toString s ++ ": " ++ stx }) := by
  refine ⟨?_, rfl, fun m => rfl, fun s stx hd b => rfl⟩
  rw [ApiClient.request_no_cache]
  obtain ⟨-, -, -, -, h5⟩ := ApiClient.loop_all_fail cfg transport
    (ApiClient.resolveUrl cfg url) false (options.method == some "GET")
    (ApiClient.getCacheKey (ApiClient.resolveUrl cfg url) options) cacheTTL now hfail
    (cfg.retries + 1) 0 (ApiClient.initState cache)
  rw [h5]
  simp [ApiClient.loopLastErr]

/-- Closed instance of C8 on the always-refusing transport. -/
theorem error_carries_last_failure_witness :
    (∀ i, isFailureB (failW i) = true) ∧
    ((ApiClient.request cfgW [] failW 0 "/a" { method := some "GET" } false 300000).result
        = Except.error (failureError (failW cfgW.retries)) ∧
      failureError FetchResult.timeout
        = { name := "AbortError", message := "The operation was aborted" } ∧
      (∀ m, failureError (FetchResult.networkError m) = { name := "TypeError", message := m }) ∧
      (∀ s stx hd b, failureError (FetchResult.response s stx hd b)
        = { name := "Error", message := "HTTP " ++ toString s ++ ": " ++ stx })) :=
  ⟨fun _ => rfl,
   error_carries_last_failure cfgW [] failW 0 "/a" { method := some "GET" } 300000 (fun _ => rfl)⟩

/-- C9: an attempt whose transport does not resolve before the deadline is
classified as a timeout, not as a network error: it throws the abort error
and its log record carries code "API_TIMEOUT" (with no error-message
detail), not "API_ERROR". -/
theorem timeout_classification (cfg : ApiConfig) (cache : Cache)
    (transport : Nat → FetchResult) (now : Nat) (url : String) (options : RequestInit)
    (cacheTTL : Nat) (h0 : transport 0 = FetchResult.timeout) :
    (ApiClient.request cfg cache transport now url options false cacheTTL).log.head?
        = some { code := "API_TIMEOUT",
                 message := "Request timeout: " ++ ApiClient.resolveUrl cfg url,
                 attempt := 0, errMessage := none } ∧
    (runAttempt (transport 0)).outcome
        = Except.error { name := "AbortError", message := "The operation was aborted" } := by
  have hf : isFailureB (transport 0) = true := by rw [h0]; rfl
  constructor
  · rw [ApiClient.request_no_cache]
    rw [ApiClient.requestLoop_fail_step cfg transport
      (ApiClient.resolveUrl cfg url) false (options.method == some "GET")
      (ApiClient.getCacheKey (ApiClient.resolveUrl cfg url) options) cacheTTL now
      0 cfg.retries (ApiClient.initState cache) hf]
    obtain ⟨t, ht⟩ := ApiClient.loop_log_extends cfg transport
      (ApiClient.resolveUrl cfg url) false (options.method == some "GET")
      (ApiClient.getCacheKey (ApiClient.resolveUrl cfg url) options) cacheTTL now
      cfg.retries 1 _
    rw [ht]
    simp [ApiClient.initState, h0, logOf, failureError]
  · rw [h0]
    rfl

/-- Closed instance of C9 on a transport whose deadline always fires. -/
theorem timeout_classification_witness :
    (timeoutW 0 = FetchResult.timeout) ∧
    ((ApiClient.request cfgW [] timeoutW 0 "/a" { method := some "GET" } false 300000).log.head?
        = some { code := "API_TIMEOUT",
                 message := "Request timeout: " ++ ApiClient.resolveUrl cfgW "/a",
                 attempt := 0, errMessage := none } ∧
      (runAttempt (timeoutW 0)).outcome
        = Except.error { name := "AbortError", message := "The operation was aborted" }) :=
  ⟨rfl, timeout_classification cfgW [] timeoutW 0 "/a" { method := some "GET" } 300000 rfl⟩
